import Mathlib

/-!
# go-example-database: the album data-access functions of `main.go`

`main.go` holds five thin wrappers around `database/sql`: `albumsByArtist`,
`albumByID`, `addAlbum`, `editAlbum` and `deleteAlbum`.  Each one sends a single
parameterised statement through the package-level handle `db` and turns what
comes back into a `(value, error)` pair.

The embedding keeps that shape.  The handle is an explicit value `db : DB σ`
together with the store state `s : σ` it acts on, so the wrappers are pure
functions; a Go `(v, error)` result is a pair whose second component is an
`Option GoError` (`none` is the nil error).  The wrappers are stated for an
arbitrary handle.  `memDB` is one handle: a table held in memory that evaluates
the five statements of the program, with switches for the failures a store can
report.
-/

namespace GoExampleDatabase

/-! ## Data model -/

/-- A Go `float32`.  The program only passes prices along and never computes
with them, so a price is carried as its IEEE-754 bit pattern. -/
abbrev Float32 := Nat

/-- The struct `Album` (main.go, lines 15-20).  `ID` is an `int64`; the program
does no arithmetic on it, so it is an `Int`. -/
structure Album where
  ID : Int
  Title : String
  Artist : String
  Price : Float32
deriving DecidableEq, Repr

/-- The zero value of `Album`, what `var alb Album` declares. -/
def Album.zero : Album := ⟨0, "", "", 0⟩

/-- Go `error` values as the program can observe them: the sentinel
`sql.ErrNoRows`, which the program recognises by identity (`err == sql.ErrNoRows`),
and any other error, known only by its text.  `fmt.Errorf` without `%w` builds an
error of the second kind. -/
inductive GoError where
  | ErrNoRows
  | new (text : String)
deriving DecidableEq, Repr

/-- The method `Error()`, which is what the verb `%v` prints for an error. -/
def GoError.Error : GoError → String
  | .ErrNoRows => "sql: no rows in result set"
  | .new text => text

/-- The verb `%d` applied to an `int64`. -/
def fmtD (i : Int) : String := toString i

/-- A value bound to a `?` placeholder of a statement. -/
inductive Value where
  | int (v : Int)
  | str (v : String)
  | f32 (v : Float32)
deriving DecidableEq, Repr

/-! ## The `database/sql` surface the program uses -/

/-- A row of a result set as the cursor holds it: the four column values in
table order, and, when they do not all convert into the destinations of `Scan`,
the number of destinations already written together with the conversion
error. -/
structure Row where
  id : Int
  title : String
  artist : String
  price : Float32
  convErr : Option (Nat × GoError)
deriving DecidableEq, Repr

/-- The call `rows.Scan(&alb.ID, &alb.Title, &alb.Artist, &alb.Price)`: the
columns are assigned to the fields by position, left to right, until one fails
to convert. -/
def Row.Scan (r : Row) (alb : Album) : Album × Option GoError :=
  match r.convErr with
  | none => (⟨r.id, r.title, r.artist, r.price⟩, none)
  | some (k, err) =>
    (⟨if 0 < k then r.id else alb.ID,
      if 1 < k then r.title else alb.Title,
      if 2 < k then r.artist else alb.Artist,
      if 3 < k then r.price else alb.Price⟩, some err)

/-- A cursor `*sql.Rows`: the rows successive `Next()` calls deliver, the value
of `rows.Err()` once `Next()` has returned false, and the value of
`rows.Close()`. -/
structure Rows where
  fetched : List Row
  err : Option GoError
  closeErr : Option GoError
deriving DecidableEq, Repr

/-- The interface `sql.Result`. -/
structure Result where
  LastInsertId : Except GoError Int
  RowsAffected : Except GoError Int

/-- The handle `*sql.DB` over a store with states `σ`.  `Query` reads, `Exec`
writes and returns the store as the statement left it. -/
structure DB (σ : Type) where
  Query : σ → String → List Value → Except GoError Rows
  Exec : σ → String → List Value → σ × Except GoError Result

/-- The pair `db.QueryRow(q, args...)` followed by `Scan`, as `database/sql`
defines it: a deferred query error, then the iteration error or `sql.ErrNoRows`
when there is no first row, otherwise `Scan` of the first row and, when that
succeeds, the value of `Close()` on the cursor. -/
def DB.QueryRowScan {σ : Type} (db : DB σ) (s : σ) (q : String) (args : List Value)
    (alb : Album) : Album × Option GoError :=
  match db.Query s q args with
  | .error err => (alb, some err)
  | .ok rows =>
    match rows.fetched with
    | [] =>
      match rows.err with
      | some err => (alb, some err)
      | none => (alb, some GoError.ErrNoRows)
    | r :: _ =>
      match r.Scan alb with
      | (alb', some err) => (alb', some err)
      | (alb', none) => (alb', rows.closeErr)

/-! ## The five functions of `main.go` -/

/-- The value `fmt.Errorf("albumsByArtist %q: %v", name, err)`; `quote` is the
verb `%q` on strings (`strconv.Quote`). -/
def albumsByArtistErr (quote : String → String) (name : String) (err : GoError) : GoError :=
  .new ("albumsByArtist " ++ quote name ++ ": " ++ err.Error)

/-- The loop `for rows.Next() { ... }` of `albumsByArtist` (lines 33-39). -/
def scanLoop (quote : String → String) (name : String) :
    List Row → List Album → Except GoError (List Album)
  | [], albums => .ok albums
  | r :: rest, albums =>
    match r.Scan Album.zero with
    | (_, some err) => .error (albumsByArtistErr quote name err)
    | (alb, none) => scanLoop quote name rest (albums ++ [alb])

/-- The function `albumsByArtist` (lines 23-44). -/
def albumsByArtist {σ : Type} (quote : String → String) (db : DB σ) (s : σ) (name : String) :
    List Album × Option GoError :=
  match db.Query s "SELECT * FROM album WHERE artist =?" [.str name] with
  | .error err => ([], some (albumsByArtistErr quote name err))
  | .ok rows =>
    match scanLoop quote name rows.fetched [] with
    | .error e => ([], some e)
    | .ok albums =>
      match rows.err with
      | some err => ([], some (albumsByArtistErr quote name err))
      | none => (albums, none)

/-- The function `albumByID` (lines 47-59). -/
def albumByID {σ : Type} (db : DB σ) (s : σ) (id : Int) : Album × Option GoError :=
  match db.QueryRowScan s "SELECT * FROM album WHERE id = ?" [.int id] Album.zero with
  | (alb, some err) =>
    if err = GoError.ErrNoRows then
      (alb, some (.new ("albumsById " ++ fmtD id ++ ": no such album")))
    else
      (alb, some (.new ("albumsById " ++ fmtD id ++ ": " ++ err.Error)))
  | (alb, none) => (alb, none)

/-- The function `addAlbum` (lines 63-73); the second component is the store afterwards. -/
def addAlbum {σ : Type} (db : DB σ) (s : σ) (alb : Album) : (Int × Option GoError) × σ :=
  match db.Exec s "INSERT INTO album (title, artist, price) VALUES (?, ?, ?)"
      [.str alb.Title, .str alb.Artist, .f32 alb.Price] with
  | (s', .error err) => ((0, some (.new ("addAlbum: " ++ err.Error))), s')
  | (s', .ok result) =>
    match result.LastInsertId with
    | .error err => ((0, some (.new ("addAlbum: " ++ err.Error))), s')
    | .ok id => ((id, none), s')

/-- The function `editAlbum` (lines 77-87). -/
def editAlbum {σ : Type} (db : DB σ) (s : σ) (id : Int) (alb : Album) :
    (Int × Option GoError) × σ :=
  match db.Exec s "UPDATE album SET title=?, artist=?, price=? WHERE id=?"
      [.str alb.Title, .str alb.Artist, .f32 alb.Price, .int id] with
  | (s', .error err) => ((0, some (.new ("editAlbum: " ++ err.Error))), s')
  | (s', .ok result) =>
    match result.RowsAffected with
    | .error err => ((0, some (.new ("editAlbum: " ++ err.Error))), s')
    | .ok returnId => ((returnId, none), s')

/-- The function `deleteAlbum` (lines 91-102). -/
def deleteAlbum {σ : Type} (db : DB σ) (s : σ) (id : Int) : (Int × Option GoError) × σ :=
  match db.Exec s "DELETE FROM album WHERE id=?" [.int id] with
  | (s', .error err) => ((0, some (.new ("deleteAlbum: " ++ err.Error))), s')
  | (s', .ok result) =>
    match result.RowsAffected with
    | .error err => ((0, some (.new ("deleteAlbum: " ++ err.Error))), s')
    | .ok returnId => ((returnId, none), s')

/-! ## A store -/

/-- The state of the store: the rows of table `album` in the order the store
returns them, the lower bound of the next assigned key, and whether an `UPDATE`
counts the rows it matched or only the rows it changed. -/
structure Store where
  album : List Album
  nextID : Int
  countsMatched : Bool
deriving DecidableEq, Repr

/-- The failures a store reports to one call: of the statement itself (`query`,
`exec`), of `Scan` on the row at a given position after a given number of
destinations, of the iteration (`rowsErr`), of the two methods of the result,
and of closing the cursor. -/
structure Faults where
  query : Option GoError
  scan : Option (Nat × Nat × GoError)
  rowsErr : Option GoError
  exec : Option GoError
  lastInsertId : Option GoError
  rowsAffected : Option GoError
  close : Option GoError
deriving DecidableEq, Repr

/-- The store answers every call. -/
def healthy : Faults := ⟨none, none, none, none, none, none, none⟩

/-- The store reports `cause` for the statement itself, and nothing else. -/
def failing (cause : GoError) : Faults :=
  ⟨some cause, none, none, some cause, none, none, none⟩

/-- A store whose second delivered row does not convert: `Scan` fails on it
after two destinations. -/
def badSecondRow : Faults :=
  ⟨none, some (1, 2, GoError.new "converting NULL to string is unsupported"), none, none, none,
    none, none⟩

/-- The store creates the row but its result cannot report the new id. -/
def noLastInsertId : Faults :=
  ⟨none, none, none, none, some (GoError.new "LastInsertId is not supported"), none, none⟩

/-- The rows of a result set for the stored rows `as`, the first at position `i`. -/
def deliver (scan : Option (Nat × Nat × GoError)) : Nat → List Album → List Row
  | _, [] => []
  | i, a :: as =>
    ⟨a.ID, a.Title, a.Artist, a.Price,
      match scan with
      | some (j, k, err) => if i = j then some (k, err) else none
      | none => none⟩ :: deliver scan (i + 1) as

/-- The key given to the next inserted row: above every key in the table. -/
def Store.freshID (s : Store) : Int :=
  s.album.foldr (fun a m => max (a.ID + 1) m) s.nextID

/-- What a result method returns: the failure when there is one, else the value. -/
def report (fault : Option GoError) (v : Int) : Except GoError Int :=
  match fault with
  | some err => .error err
  | none => .ok v

/-- Modelled from the spec: the relational store behind the handle, which is
not part of the repository.  It evaluates the five statements of `main.go` as
sections 4.1 and 6 describe them: the two reads filter the table by exact
equality on the artist or on the id column and keep the store's order; the
insert creates one row with the given title, artist and price under a new unique
id; the update sets title, artist and price on the rows matching the id and
counts the rows changed (or matched, by the store's setting); the delete removes
the rows matching the id and counts them.  A statement that fails leaves the
table as it was. -/
def memDB (f : Faults) : DB Store where
  Query s q args :=
    match f.query with
    | some err => .error err
    | none =>
      if q = "SELECT * FROM album WHERE artist =?" then
        match args with
        | [.str name] =>
          .ok ⟨deliver f.scan 0 (s.album.filter (fun a => decide (a.Artist = name))),
            f.rowsErr, f.close⟩
        | _ => .error (.new "sql: wrong arguments")
      else if q = "SELECT * FROM album WHERE id = ?" then
        match args with
        | [.int id] =>
          .ok ⟨deliver f.scan 0 (s.album.filter (fun a => decide (a.ID = id))),
            f.rowsErr, f.close⟩
        | _ => .error (.new "sql: wrong arguments")
      else .error (.new "sql: unknown statement")
  Exec s q args :=
    match f.exec with
    | some err => (s, .error err)
    | none =>
      if q = "INSERT INTO album (title, artist, price) VALUES (?, ?, ?)" then
        match args with
        | [.str title, .str artist, .f32 price] =>
          (⟨s.album ++ [⟨s.freshID, title, artist, price⟩], s.freshID + 1, s.countsMatched⟩,
            .ok ⟨report f.lastInsertId s.freshID, report f.rowsAffected 1⟩)
        | _ => (s, .error (.new "sql: wrong arguments"))
      else if q = "UPDATE album SET title=?, artist=?, price=? WHERE id=?" then
        match args with
        | [.str title, .str artist, .f32 price, .int id] =>
          (⟨s.album.map (fun a => if a.ID = id then ⟨a.ID, title, artist, price⟩ else a),
              s.nextID, s.countsMatched⟩,
            .ok ⟨report f.lastInsertId 0,
              report f.rowsAffected ((s.album.filter (fun a =>
                decide (a.ID = id) &&
                  (s.countsMatched || decide ((⟨a.ID, title, artist, price⟩ : Album) ≠ a)))).length)⟩)
        | _ => (s, .error (.new "sql: wrong arguments"))
      else if q = "DELETE FROM album WHERE id=?" then
        match args with
        | [.int id] =>
          (⟨s.album.filter (fun a => decide (a.ID ≠ id)), s.nextID, s.countsMatched⟩,
            .ok ⟨report f.lastInsertId 0,
              report f.rowsAffected ((s.album.filter (fun a => decide (a.ID = id))).length)⟩)
        | _ => (s, .error (.new "sql: wrong arguments"))
      else (s, .error (.new "sql: unknown statement"))

/-- A handle that keeps a journal: every `Exec` succeeds and appends the
statement text and its bound parameters to the state. -/
def journalDB : DB (List (String × List Value)) where
  Query _ _ _ := .ok ⟨[], none, none⟩
  Exec s q args := (s ++ [(q, args)], .ok ⟨.ok 0, .ok 0⟩)

/-- The text `part` occurs in the message `msg`. -/
def carries (msg part : String) : Prop := part.data <:+: msg.data

instance (msg part : String) : Decidable (carries msg part) :=
  inferInstanceAs (Decidable (part.data <:+: msg.data))

/-- A store of four albums for the concrete cases; the prices are the bit
patterns of 56.99, 63.99, 17.99 and 34.98, and `main` inserts 43.33
(1110266348) and updates to 99.33 (1120315638). -/
def sample : Store :=
  ⟨[⟨1, "Blue Train", "John Coltrane", 1113847235⟩,
    ⟨2, "Giant Steps", "John Coltrane", 1115682243⟩,
    ⟨3, "Jeru", "Gerry Mulligan", 1099950981⟩,
    ⟨4, "Sarah Vaughan", "Sarah Vaughan", 1108077445⟩], 5, false⟩

/-! ## Lemmas on the loop and on the store -/

theorem scanLoop_ok (quote : String → String) (name : String) (rows : List Row)
    (albums : List Album) (h : ∀ r ∈ rows, r.convErr = none) :
    scanLoop quote name rows albums
      = .ok (albums ++ rows.map (fun r => (⟨r.id, r.title, r.artist, r.price⟩ : Album))) := by
  induction rows generalizing albums with
  | nil => simp [scanLoop]
  | cons r rest ih =>
    have hr : r.convErr = none := h r (List.mem_cons_self _ _)
    have hrest : ∀ x ∈ rest, x.convErr = none := fun x hx => h x (List.mem_cons_of_mem _ hx)
    simp [scanLoop, Row.Scan, hr, ih _ hrest]

theorem scanLoop_fail (quote : String → String) (name : String) (pre : List Row) (r : Row)
    (post : List Row) (k : Nat) (cause : GoError) (albums : List Album)
    (h : ∀ x ∈ pre, x.convErr = none) (hr : r.convErr = some (k, cause)) :
    scanLoop quote name (pre ++ r :: post) albums = .error (albumsByArtistErr quote name cause) := by
  induction pre generalizing albums with
  | nil => simp [scanLoop, Row.Scan, hr]
  | cons x rest ih =>
    have hx : x.convErr = none := h x (List.mem_cons_self _ _)
    have hrest : ∀ y ∈ rest, y.convErr = none := fun y hy => h y (List.mem_cons_of_mem _ hy)
    simp [scanLoop, Row.Scan, hx, ih _ hrest]

theorem deliver_none (i : Nat) (as : List Album) :
    deliver none i as = as.map (fun a => (⟨a.ID, a.Title, a.Artist, a.Price, none⟩ : Row)) := by
  induction as generalizing i with
  | nil => rfl
  | cons a rest ih => simp [deliver, ih]

theorem memDB_query_artist (f : Faults) (s : Store) (name : String) (hq : f.query = none) :
    (memDB f).Query s "SELECT * FROM album WHERE artist =?" [.str name]
      = .ok ⟨deliver f.scan 0 (s.album.filter (fun a => decide (a.Artist = name))),
            f.rowsErr, f.close⟩ := by
  simp [memDB, hq]

theorem memDB_query_id (f : Faults) (s : Store) (id : Int) (hq : f.query = none) :
    (memDB f).Query s "SELECT * FROM album WHERE id = ?" [.int id]
      = .ok ⟨deliver f.scan 0 (s.album.filter (fun a => decide (a.ID = id))),
            f.rowsErr, f.close⟩ := by
  simp [memDB, hq]

theorem memDB_exec_fail (f : Faults) (s : Store) (q : String) (args : List Value)
    (cause : GoError) (he : f.exec = some cause) :
    (memDB f).Exec s q args = (s, .error cause) := by
  simp [memDB, he]

theorem memDB_exec_insert (f : Faults) (s : Store) (title artist : String) (price : Float32)
    (he : f.exec = none) :
    (memDB f).Exec s "INSERT INTO album (title, artist, price) VALUES (?, ?, ?)"
        [.str title, .str artist, .f32 price]
      = (⟨s.album ++ [⟨s.freshID, title, artist, price⟩], s.freshID + 1, s.countsMatched⟩,
          .ok ⟨report f.lastInsertId s.freshID, report f.rowsAffected 1⟩) := by
  simp [memDB, he]

theorem memDB_exec_update (f : Faults) (s : Store) (title artist : String) (price : Float32)
    (id : Int) (he : f.exec = none) :
    (memDB f).Exec s "UPDATE album SET title=?, artist=?, price=? WHERE id=?"
        [.str title, .str artist, .f32 price, .int id]
      = (⟨s.album.map (fun a => if a.ID = id then ⟨a.ID, title, artist, price⟩ else a),
            s.nextID, s.countsMatched⟩,
          .ok ⟨report f.lastInsertId 0,
            report f.rowsAffected ((s.album.filter (fun a =>
              decide (a.ID = id) &&
                (s.countsMatched || decide ((⟨a.ID, title, artist, price⟩ : Album) ≠ a)))).length)⟩) := by
  simp [memDB, he]

theorem memDB_exec_delete (f : Faults) (s : Store) (id : Int) (he : f.exec = none) :
    (memDB f).Exec s "DELETE FROM album WHERE id=?" [.int id]
      = (⟨s.album.filter (fun a => decide (a.ID ≠ id)), s.nextID, s.countsMatched⟩,
          .ok ⟨report f.lastInsertId 0,
            report f.rowsAffected ((s.album.filter (fun a => decide (a.ID = id))).length)⟩) := by
  simp [memDB, he]

theorem freshID_ge (s : Store) : ∀ a ∈ s.album, a.ID < s.freshID := by
  obtain ⟨album, nextID, cm⟩ := s
  simp only [Store.freshID]
  induction album with
  | nil => simp
  | cons b rest ih =>
    intro a ha
    simp only [List.foldr_cons]
    rcases List.mem_cons.mp ha with h | h
    · subst h; exact lt_of_lt_of_le (by omega) (le_max_left _ _)
    · exact lt_of_lt_of_le (ih a h) (le_max_right _ _)

theorem filter_none_of_forall_ne {α : Type} (p : α → Bool) (l : List α)
    (h : ∀ a ∈ l, p a = false) : l.filter p = [] := by
  rw [List.filter_eq_nil_iff]
  intro a ha
  simp [h a ha]

theorem carries_mid (a b c : String) : carries (a ++ b ++ c) b := by
  refine ⟨a.data, c.data, ?_⟩
  simp [String.data_append]

theorem string_append_left_cancel (a x y : String) : a ++ x = a ++ y ↔ x = y := by
  constructor
  · intro h
    have h' := congrArg String.data h
    simp only [String.data_append] at h'
    exact String.ext (List.append_cancel_left h')
  · intro h; rw [h]

theorem filter_id_after_delete (l : List Album) (i : Int) :
    (l.filter (fun a => decide (a.ID ≠ i))).filter (fun a => decide (a.ID = i)) = [] := by
  apply filter_none_of_forall_ne
  intro a ha
  have h := (List.mem_filter.mp ha).2
  simpa using h

theorem length_filter_id_of_nodup (l : List Album) (i : Int)
    (huniq : (l.map Album.ID).Nodup) (hex : ∃ a ∈ l, a.ID = i) :
    (l.filter (fun a => decide (a.ID = i))).length = 1 := by
  induction l with
  | nil => obtain ⟨a, ha, _⟩ := hex; cases ha
  | cons b rest ih =>
    rw [List.map_cons, List.nodup_cons] at huniq
    obtain ⟨hb, hrest⟩ := huniq
    by_cases hbi : b.ID = i
    · have hnone : rest.filter (fun a => decide (a.ID = i)) = [] := by
        apply filter_none_of_forall_ne
        intro a ha
        have : a.ID ≠ i := by
          intro hai
          exact hb (List.mem_map.mpr ⟨a, ha, by rw [hai, hbi]⟩)
        simp [this]
      simp [List.filter_cons, hbi, hnone]
    · obtain ⟨a, ha, hai⟩ := hex
      have ha' : a ∈ rest := by
        rcases List.mem_cons.mp ha with h | h
        · exact absurd (h ▸ hai) hbi
        · exact h
      simp [List.filter_cons, hbi, ih hrest ⟨a, ha', hai⟩]

theorem map_update_of_forall_ne (l : List Album) (i : Int) (title artist : String)
    (price : Float32) (h : ∀ a ∈ l, a.ID ≠ i) :
    l.map (fun a => if a.ID = i then (⟨a.ID, title, artist, price⟩ : Album) else a) = l := by
  induction l with
  | nil => rfl
  | cons b rest ih =>
    have hb : b.ID ≠ i := h b (List.mem_cons_self _ _)
    have hrest : ∀ a ∈ rest, a.ID ≠ i := fun a ha => h a (List.mem_cons_of_mem _ ha)
    simp [hb, ih hrest]

theorem filter_ne_of_forall_ne (l : List Album) (i : Int) (h : ∀ a ∈ l, a.ID ≠ i) :
    l.filter (fun a => decide (a.ID ≠ i)) = l := by
  rw [List.filter_eq_self]
  intro a ha
  simpa using h a ha

theorem rows_related_update (l : List Album) (i : Int) (title artist : String) (price : Float32) :
    List.Forall₂ (fun old new => new.ID = old.ID ∧ (old.ID ≠ i → new = old)) l
      (l.map (fun a => if a.ID = i then (⟨a.ID, title, artist, price⟩ : Album) else a)) := by
  induction l with
  | nil => exact List.Forall₂.nil
  | cons b rest ih =>
    refine List.Forall₂.cons ?_ ih
    by_cases hb : b.ID = i
    · simp [hb]
    · simp [hb]

theorem rows_related_same (l : List Album) (i : Int) :
    List.Forall₂ (fun old new => new.ID = old.ID ∧ (old.ID ≠ i → new = old)) l l := by
  induction l with
  | nil => exact List.Forall₂.nil
  | cons b rest ih => exact List.Forall₂.cons ⟨rfl, fun _ => rfl⟩ ih

theorem filter_fresh_after_insert (s : Store) (title artist : String) (price : Float32) :
    (s.album ++ [(⟨s.freshID, title, artist, price⟩ : Album)]).filter
        (fun a => decide (a.ID = s.freshID))
      = [⟨s.freshID, title, artist, price⟩] := by
  have hold : s.album.filter (fun a => decide (a.ID = s.freshID)) = [] :=
    filter_none_of_forall_ne _ _ (fun a ha => by simp [ne_of_lt (freshID_ge s a ha)])
  simp [List.filter_append, hold]

/-! ## Not found and store failures (C1, C2) -/

/-- C1, the claim as stated, fails: looking up id 9, which matches no row of
`sample`, and looking up id 9 on a store that fails with a cause whose text is
`no such album` return the same album and the same error, so the not-found error
cannot be told from the generic failure. -/
theorem C1_not_found_indistinguishable :
    albumByID (memDB healthy) sample 9
        = (Album.zero, some (GoError.new "albumsById 9: no such album"))
      ∧ albumByID (memDB (failing (GoError.new "no such album"))) sample 9
        = (Album.zero, some (GoError.new "albumsById 9: no such album"))
      ∧ GoError.new "no such album" ≠ GoError.ErrNoRows := by
  decide

/-- C1 (amended): for an id that matches no row of a store that answers the
query, `albumByID` returns the zero album and the error
`albumsById <id>: no such album`, whose text carries the id; for any handle on
which the lookup fails with a cause other than `sql.ErrNoRows`, it returns
`albumsById <id>: <cause>`, and that error equals the not-found error exactly
when the text of the cause is `no such album`. -/
theorem C1_not_found_error {σ : Type} (f : Faults) (s : Store) (id : Int)
    (db : DB σ) (t : σ) (alb : Album) (cause : GoError)
    (hq : f.query = none) (hr : f.rowsErr = none) (hid : ∀ a ∈ s.album, a.ID ≠ id)
    (hscan : db.QueryRowScan t "SELECT * FROM album WHERE id = ?" [.int id] Album.zero
      = (alb, some cause))
    (hc : cause ≠ GoError.ErrNoRows) :
    albumByID (memDB f) s id
        = (Album.zero, some (GoError.new ("albumsById " ++ fmtD id ++ ": no such album")))
      ∧ carries ("albumsById " ++ fmtD id ++ ": no such album") (fmtD id)
      ∧ albumByID db t id
        = (alb, some (GoError.new ("albumsById " ++ fmtD id ++ ": " ++ cause.Error)))
      ∧ ((albumByID db t id).2 = (albumByID (memDB f) s id).2
          ↔ cause.Error = "no such album") := by
  have hnone : s.album.filter (fun a => decide (a.ID = id)) = [] :=
    filter_none_of_forall_ne _ _ (fun a ha => by simp [hid a ha])
  have h1 : albumByID (memDB f) s id
      = (Album.zero, some (GoError.new ("albumsById " ++ fmtD id ++ ": no such album"))) := by
    simp [albumByID, DB.QueryRowScan, memDB_query_id f s id hq, hnone, deliver, hr]
  have h2 : albumByID db t id
      = (alb, some (GoError.new ("albumsById " ++ fmtD id ++ ": " ++ cause.Error))) := by
    simp [albumByID, hscan, hc]
  refine ⟨h1, carries_mid _ _ _, h2, ?_⟩
  have e : "albumsById " ++ fmtD id ++ ": no such album"
      = "albumsById " ++ fmtD id ++ ": " ++ "no such album" := by
    rw [String.append_assoc ("albumsById " ++ fmtD id)]
    congr 1
  rw [h1, h2, e]
  simp [string_append_left_cancel]

theorem C1_not_found_error_witness :
    albumByID (memDB healthy) sample 9
        = (Album.zero, some (GoError.new ("albumsById " ++ fmtD 9 ++ ": no such album")))
      ∧ carries ("albumsById " ++ fmtD 9 ++ ": no such album") (fmtD 9)
      ∧ albumByID (memDB (failing (GoError.new "connection refused"))) sample 9
        = (Album.zero, some (GoError.new ("albumsById " ++ fmtD 9 ++ ": "
            ++ (GoError.new "connection refused").Error)))
      ∧ ((albumByID (memDB (failing (GoError.new "connection refused"))) sample 9).2
            = (albumByID (memDB healthy) sample 9).2
          ↔ (GoError.new "connection refused").Error = "no such album") :=
  C1_not_found_error healthy sample 9 (memDB (failing (GoError.new "connection refused")))
    sample Album.zero (GoError.new "connection refused") rfl rfl (by decide) (by decide)
    (by decide)

/-- C2, the claim as stated, fails: when the store rejects the statement of
`editAlbum(2, ...)` or of `deleteAlbum(3)`, the error returned carries the
operation name and the cause but not the id of the call. -/
theorem C2_write_errors_omit_id :
    (editAlbum (memDB (failing (GoError.new "connection refused"))) sample 2
        ⟨0, "New New Album", "New New Firman", 1120315638⟩).1
        = (0, some (GoError.new "editAlbum: connection refused"))
      ∧ ¬ carries "editAlbum: connection refused" (fmtD 2)
      ∧ (deleteAlbum (memDB (failing (GoError.new "connection refused"))) sample 3).1
        = (0, some (GoError.new "deleteAlbum: connection refused"))
      ∧ ¬ carries "deleteAlbum: connection refused" (fmtD 3) := by
  decide

/-- C2 (amended): whatever failure the store reports, at the statement, at the
`Scan` of a row, at the end of the iteration or at the result method, every
function returns an error whose text ends with the text of that cause.  The two
reads put a label and the input before it (`albumsByArtist`, the quoted artist
name; `albumsById`, the id in decimal); the three writes put only their own name
before it, and no input. -/
theorem C2_store_failure_reported {σ : Type} (quote : String → String) (db : DB σ) (s : σ)
    (name : String) (id : Int) (alb : Album) (cause : GoError) :
    (db.Query s "SELECT * FROM album WHERE artist =?" [.str name] = .error cause →
        albumsByArtist quote db s name
          = ([], some (GoError.new ("albumsByArtist " ++ quote name ++ ": " ++ cause.Error))))
      ∧ (∀ (rows : Rows) (pre : List Row) (r : Row) (post : List Row) (k : Nat),
          db.Query s "SELECT * FROM album WHERE artist =?" [.str name] = .ok rows →
          rows.fetched = pre ++ r :: post → (∀ x ∈ pre, x.convErr = none) →
          r.convErr = some (k, cause) →
          albumsByArtist quote db s name
            = ([], some (GoError.new ("albumsByArtist " ++ quote name ++ ": " ++ cause.Error))))
      ∧ (∀ (rows : Rows),
          db.Query s "SELECT * FROM album WHERE artist =?" [.str name] = .ok rows →
          (∀ x ∈ rows.fetched, x.convErr = none) → rows.err = some cause →
          albumsByArtist quote db s name
            = ([], some (GoError.new ("albumsByArtist " ++ quote name ++ ": " ++ cause.Error))))
      ∧ (∀ (a : Album),
          db.QueryRowScan s "SELECT * FROM album WHERE id = ?" [.int id] Album.zero
            = (a, some cause) →
          cause ≠ GoError.ErrNoRows →
          albumByID db s id
            = (a, some (GoError.new ("albumsById " ++ fmtD id ++ ": " ++ cause.Error))))
      ∧ (∀ (s' : σ),
          db.Exec s "INSERT INTO album (title, artist, price) VALUES (?, ?, ?)"
            [.str alb.Title, .str alb.Artist, .f32 alb.Price] = (s', .error cause) →
          addAlbum db s alb = ((0, some (GoError.new ("addAlbum: " ++ cause.Error))), s'))
      ∧ (∀ (s' : σ) (res : Result),
          db.Exec s "INSERT INTO album (title, artist, price) VALUES (?, ?, ?)"
            [.str alb.Title, .str alb.Artist, .f32 alb.Price] = (s', .ok res) →
          res.LastInsertId = .error cause →
          addAlbum db s alb = ((0, some (GoError.new ("addAlbum: " ++ cause.Error))), s'))
      ∧ (∀ (s' : σ),
          db.Exec s "UPDATE album SET title=?, artist=?, price=? WHERE id=?"
            [.str alb.Title, .str alb.Artist, .f32 alb.Price, .int id] = (s', .error cause) →
          editAlbum db s id alb = ((0, some (GoError.new ("editAlbum: " ++ cause.Error))), s'))
      ∧ (∀ (s' : σ) (res : Result),
          db.Exec s "UPDATE album SET title=?, artist=?, price=? WHERE id=?"
            [.str alb.Title, .str alb.Artist, .f32 alb.Price, .int id] = (s', .ok res) →
          res.RowsAffected = .error cause →
          editAlbum db s id alb = ((0, some (GoError.new ("editAlbum: " ++ cause.Error))), s'))
      ∧ (∀ (s' : σ),
          db.Exec s "DELETE FROM album WHERE id=?" [.int id] = (s', .error cause) →
          deleteAlbum db s id = ((0, some (GoError.new ("deleteAlbum: " ++ cause.Error))), s'))
      ∧ (∀ (s' : σ) (res : Result),
          db.Exec s "DELETE FROM album WHERE id=?" [.int id] = (s', .ok res) →
          res.RowsAffected = .error cause →
          deleteAlbum db s id
            = ((0, some (GoError.new ("deleteAlbum: " ++ cause.Error))), s')) := by
  refine ⟨?_, ?_, ?_, ?_, ?_, ?_, ?_, ?_, ?_, ?_⟩
  · intro h
    simp [albumsByArtist, h, albumsByArtistErr]
  · intro rows pre r post k h hf hpre hr
    simp [albumsByArtist, h, hf, scanLoop_fail quote name pre r post k cause [] hpre hr,
      albumsByArtistErr]
  · intro rows h hall herr
    simp [albumsByArtist, h, scanLoop_ok quote name rows.fetched [] hall, herr,
      albumsByArtistErr]
  · intro a h hc
    simp [albumByID, h, hc]
  · intro s' h
    simp [addAlbum, h]
  · intro s' res h hres
    simp [addAlbum, h, hres]
  · intro s' h
    simp [editAlbum, h]
  · intro s' res h hres
    simp [editAlbum, h, hres]
  · intro s' h
    simp [deleteAlbum, h]
  · intro s' res h hres
    simp [deleteAlbum, h, hres]

theorem C2_store_failure_reported_witness :
    albumsByArtist (fun n => "\"" ++ n ++ "\"") (memDB (failing (GoError.new "connection refused")))
        sample "John Coltrane"
        = ([], some (GoError.new ("albumsByArtist " ++ (fun n => "\"" ++ n ++ "\"") "John Coltrane"
            ++ ": " ++ (GoError.new "connection refused").Error)))
      ∧ albumsByArtist (fun n => "\"" ++ n ++ "\"") (memDB badSecondRow) sample "John Coltrane"
        = ([], some (GoError.new ("albumsByArtist " ++ (fun n => "\"" ++ n ++ "\"") "John Coltrane"
            ++ ": " ++ (GoError.new "converting NULL to string is unsupported").Error)))
      ∧ deleteAlbum (memDB (failing (GoError.new "connection refused"))) sample 3
        = ((0, some (GoError.new ("deleteAlbum: " ++ (GoError.new "connection refused").Error))),
            sample) :=
  ⟨(C2_store_failure_reported (fun n => "\"" ++ n ++ "\"")
      (memDB (failing (GoError.new "connection refused"))) sample "John Coltrane" 3 Album.zero
      (GoError.new "connection refused")).1 rfl,
   (C2_store_failure_reported (fun n => "\"" ++ n ++ "\"")
      (memDB badSecondRow) sample "John Coltrane" 3 Album.zero
      (GoError.new "converting NULL to string is unsupported")).2.1
      ⟨[⟨1, "Blue Train", "John Coltrane", 1113847235, none⟩,
        ⟨2, "Giant Steps", "John Coltrane", 1115682243,
          some (2, GoError.new "converting NULL to string is unsupported")⟩], none, none⟩
      [⟨1, "Blue Train", "John Coltrane", 1113847235, none⟩]
      ⟨2, "Giant Steps", "John Coltrane", 1115682243,
        some (2, GoError.new "converting NULL to string is unsupported")⟩
      [] 2 rfl rfl (by decide) rfl,
   (C2_store_failure_reported (fun n => "\"" ++ n ++ "\"")
      (memDB (failing (GoError.new "connection refused"))) sample "John Coltrane" 3 Album.zero
      (GoError.new "connection refused")).2.2.2.2.2.2.2.2.1 sample rfl⟩

/-! ## Insert (C3) -/

/-- C3, the claim as stated, fails: when the statement succeeds and
`LastInsertId` then reports an error, `addAlbum` returns that error although
the row has been created. -/
theorem C3_error_after_row_created :
    (addAlbum (memDB noLastInsertId) sample ⟨0, "Cinta Kasih New", "Firman New", 1110266348⟩).1
        = (0, some (GoError.new "addAlbum: LastInsertId is not supported"))
      ∧ (⟨5, "Cinta Kasih New", "Firman New", 1110266348⟩ : Album)
          ∈ (addAlbum (memDB noLastInsertId) sample
              ⟨0, "Cinta Kasih New", "Firman New", 1110266348⟩).2.album
      ∧ (⟨5, "Cinta Kasih New", "Firman New", 1110266348⟩ : Album) ∉ sample.album := by
  decide

/-- C3 (amended): `addAlbum` has three outcomes.  When the store rejects the
statement it returns id 0 with the error `addAlbum: <cause>` and the table is
as before, no row created.  When the statement and `LastInsertId` both succeed
it returns the new id with a nil error, and the table is the old one followed
by one row holding that id and the title, artist and price given, the id being
that of no earlier row.  When the statement succeeds and `LastInsertId` fails it
returns id 0 with the error `addAlbum: <cause>` and the row has been created
all the same: nothing is rolled back. -/
theorem C3_addAlbum_outcomes (f : Faults) (s : Store) (alb : Album) :
    (∀ cause, f.exec = some cause →
        addAlbum (memDB f) s alb = ((0, some (GoError.new ("addAlbum: " ++ cause.Error))), s))
      ∧ (f.exec = none → f.lastInsertId = none →
          addAlbum (memDB f) s alb
              = ((s.freshID, none),
                  ⟨s.album ++ [⟨s.freshID, alb.Title, alb.Artist, alb.Price⟩], s.freshID + 1,
                    s.countsMatched⟩)
            ∧ ∀ a ∈ s.album, a.ID ≠ s.freshID)
      ∧ (∀ cause, f.exec = none → f.lastInsertId = some cause →
          addAlbum (memDB f) s alb
            = ((0, some (GoError.new ("addAlbum: " ++ cause.Error))),
                ⟨s.album ++ [⟨s.freshID, alb.Title, alb.Artist, alb.Price⟩], s.freshID + 1,
                  s.countsMatched⟩)) := by
  refine ⟨?_, ?_, ?_⟩
  · intro cause he
    simp [addAlbum, memDB_exec_fail f s _ _ cause he]
  · intro he hl
    refine ⟨?_, fun a ha => ne_of_lt (freshID_ge s a ha)⟩
    simp [addAlbum, memDB_exec_insert f s _ _ _ he, hl, report]
  · intro cause he hl
    simp [addAlbum, memDB_exec_insert f s _ _ _ he, hl, report]

theorem C3_addAlbum_outcomes_witness :
    addAlbum (memDB healthy) sample ⟨0, "Cinta Kasih New", "Firman New", 1110266348⟩
        = ((sample.freshID, none),
            ⟨sample.album ++ [⟨sample.freshID, "Cinta Kasih New", "Firman New", 1110266348⟩],
              sample.freshID + 1, sample.countsMatched⟩)
      ∧ ∀ a ∈ sample.album, a.ID ≠ sample.freshID :=
  (C3_addAlbum_outcomes healthy sample ⟨0, "Cinta Kasih New", "Firman New", 1110266348⟩).2.1 rfl rfl

/-! ## Insert, then read by id (C6) -/

/-- C6: round trip.  When `addAlbum(a)` returns id `n` with a nil error, an
`albumByID(n)` on the resulting store, with the store answering the query, the
`Scan` and the closing of the cursor, returns a nil error and the album whose
id is `n` and whose title, artist and price are those of `a`. -/
theorem C6_insert_then_find (f g : Faults) (s : Store) (a : Album) (n : Int)
    (hadd : (addAlbum (memDB f) s a).1 = (n, none))
    (hq : g.query = none) (hs : g.scan = none) (hc : g.close = none) :
    albumByID (memDB g) (addAlbum (memDB f) s a).2 n
      = (⟨n, a.Title, a.Artist, a.Price⟩, none) := by
  cases he : f.exec with
  | some cause =>
    simp [addAlbum, memDB_exec_fail f s _ _ cause he] at hadd
  | none =>
    cases hl : f.lastInsertId with
    | some cause =>
      simp [addAlbum, memDB_exec_insert f s _ _ _ he, hl, report] at hadd
    | none =>
      have hout : addAlbum (memDB f) s a
          = ((s.freshID, none),
              ⟨s.album ++ [⟨s.freshID, a.Title, a.Artist, a.Price⟩], s.freshID + 1,
                s.countsMatched⟩) := by
        simp [addAlbum, memDB_exec_insert f s _ _ _ he, hl, report]
      rw [hout] at hadd ⊢
      have hn : s.freshID = n := by
        have := congrArg Prod.fst hadd
        simpa using this
      subst hn
      simp only [albumByID, DB.QueryRowScan, memDB_query_id g _ _ hq,
        filter_fresh_after_insert s a.Title a.Artist a.Price, hs, hc, deliver, Row.Scan]

theorem C6_insert_then_find_witness :
    albumByID (memDB healthy)
        (addAlbum (memDB healthy) sample ⟨0, "Cinta Kasih New", "Firman New", 1110266348⟩).2 5
      = (⟨5, (⟨0, "Cinta Kasih New", "Firman New", 1110266348⟩ : Album).Title,
          (⟨0, "Cinta Kasih New", "Firman New", 1110266348⟩ : Album).Artist,
          (⟨0, "Cinta Kasih New", "Firman New", 1110266348⟩ : Album).Price⟩, none) :=
  C6_insert_then_find healthy healthy sample ⟨0, "Cinta Kasih New", "Firman New", 1110266348⟩ 5
    (by decide) rfl rfl rfl

/-! ## Reading by artist (C4, C5) -/

/-- C4: when the query for an artist name succeeds and matches zero rows,
`albumsByArtist` returns the empty sequence and a nil error.  This holds for any
handle whose query delivers no row and reports no error, and for the store
whenever no row of the table has that artist. -/
theorem C4_no_match_is_empty {σ : Type} (quote : String → String) (db : DB σ) (t : σ)
    (f : Faults) (s : Store) (name : String) (closed : Option GoError)
    (hdb : db.Query t "SELECT * FROM album WHERE artist =?" [.str name]
      = .ok ⟨[], none, closed⟩)
    (hq : f.query = none) (hr : f.rowsErr = none) (hno : ∀ a ∈ s.album, a.Artist ≠ name) :
    albumsByArtist quote db t name = ([], none)
      ∧ albumsByArtist quote (memDB f) s name = ([], none) := by
  have hnone : s.album.filter (fun a => decide (a.Artist = name)) = [] :=
    filter_none_of_forall_ne _ _ (fun a ha => by simp [hno a ha])
  constructor
  · simp [albumsByArtist, hdb, scanLoop]
  · simp [albumsByArtist, memDB_query_artist f s name hq, hnone, deliver, scanLoop, hr]

theorem C4_no_match_is_empty_witness :
    albumsByArtist (fun n => "\"" ++ n ++ "\"") journalDB [] "Betty Carter" = ([], none)
      ∧ albumsByArtist (fun n => "\"" ++ n ++ "\"") (memDB healthy) sample "Betty Carter"
        = ([], none) :=
  C4_no_match_is_empty (fun n => "\"" ++ n ++ "\"") journalDB [] healthy sample "Betty Carter"
    none rfl rfl rfl (by decide)

/-- C5: when the query, every `Scan` and the iteration succeed, `albumsByArtist`
returns one `Album` per delivered row, with id, title, artist and price taken
from the columns of that row, in the order of delivery; on the store these are
exactly the rows of the table whose artist equals the name, in table order. -/
theorem C5_rows_in_store_order {σ : Type} (quote : String → String) (db : DB σ) (t : σ)
    (rows : Rows) (f : Faults) (s : Store) (name : String)
    (hdb : db.Query t "SELECT * FROM album WHERE artist =?" [.str name] = .ok rows)
    (hconv : ∀ r ∈ rows.fetched, r.convErr = none) (herr : rows.err = none)
    (hq : f.query = none) (hs : f.scan = none) (hr : f.rowsErr = none) :
    albumsByArtist quote db t name
        = (rows.fetched.map (fun r => (⟨r.id, r.title, r.artist, r.price⟩ : Album)), none)
      ∧ albumsByArtist quote (memDB f) s name
        = (s.album.filter (fun a => decide (a.Artist = name)), none) := by
  constructor
  · simp [albumsByArtist, hdb, scanLoop_ok quote name rows.fetched [] hconv, herr]
  · have hall : ∀ r ∈ deliver none 0 (s.album.filter (fun a => decide (a.Artist = name))),
        r.convErr = none := by
      intro r hr'
      rw [deliver_none] at hr'
      obtain ⟨a, _, rfl⟩ := List.mem_map.mp hr'
      rfl
    simp only [albumsByArtist, memDB_query_artist f s name hq, hs, hr,
      scanLoop_ok quote name _ [] hall]
    simp [deliver_none, Function.comp_def]

theorem C5_rows_in_store_order_witness :
    albumsByArtist (fun n => "\"" ++ n ++ "\"") (memDB healthy) sample "John Coltrane"
        = (([⟨1, "Blue Train", "John Coltrane", 1113847235, none⟩,
              ⟨2, "Giant Steps", "John Coltrane", 1115682243, none⟩] : List Row).map
            (fun r => (⟨r.id, r.title, r.artist, r.price⟩ : Album)), none)
      ∧ albumsByArtist (fun n => "\"" ++ n ++ "\"") (memDB healthy) sample "John Coltrane"
        = (sample.album.filter (fun a => decide (a.Artist = "John Coltrane")), none) :=
  C5_rows_in_store_order (fun n => "\"" ++ n ++ "\"") (memDB healthy) sample
    ⟨[⟨1, "Blue Train", "John Coltrane", 1113847235, none⟩,
      ⟨2, "Giant Steps", "John Coltrane", 1115682243, none⟩], none, none⟩
    healthy sample "John Coltrane" rfl (by decide) rfl rfl rfl rfl

/-! ## Update and delete (C7 - C10) -/

/-- C7: zero rows affected is a result, not an error.  For any handle, when the
statement of `editAlbum` or of `deleteAlbum` succeeds and reports 0 rows
affected, the function returns 0 with a nil error; on the store, for an id that
matches no row, both return 0 with a nil error and leave the table as it was. -/
theorem C7_zero_rows_is_not_an_error {σ : Type} (db : DB σ) (t u v : σ) (ru rv : Result)
    (f : Faults) (s : Store) (id : Int) (alb : Album)
    (hu : db.Exec t "UPDATE album SET title=?, artist=?, price=? WHERE id=?"
      [.str alb.Title, .str alb.Artist, .f32 alb.Price, .int id] = (u, .ok ru))
    (hru : ru.RowsAffected = .ok 0)
    (hv : db.Exec t "DELETE FROM album WHERE id=?" [.int id] = (v, .ok rv))
    (hrv : rv.RowsAffected = .ok 0)
    (he : f.exec = none) (hr : f.rowsAffected = none) (hid : ∀ a ∈ s.album, a.ID ≠ id) :
    editAlbum db t id alb = ((0, none), u)
      ∧ deleteAlbum db t id = ((0, none), v)
      ∧ editAlbum (memDB f) s id alb = ((0, none), s)
      ∧ deleteAlbum (memDB f) s id = ((0, none), s) := by
  have hnone : ∀ p : Album → Bool,
      s.album.filter (fun a => decide (a.ID = id) && p a) = [] := by
    intro p
    apply filter_none_of_forall_ne
    intro a ha
    simp [hid a ha]
  have hnone' : s.album.filter (fun a => decide (a.ID = id)) = [] :=
    filter_none_of_forall_ne _ _ (fun a ha => by simp [hid a ha])
  refine ⟨?_, ?_, ?_, ?_⟩
  · simp [editAlbum, hu, hru]
  · simp [deleteAlbum, hv, hrv]
  · simp only [editAlbum, memDB_exec_update f s _ _ _ id he, hr, report, hnone,
      map_update_of_forall_ne s.album id _ _ _ hid]
    rfl
  · simp only [deleteAlbum, memDB_exec_delete f s id he, hr, report, hnone',
      filter_ne_of_forall_ne s.album id hid]
    rfl

theorem C7_zero_rows_is_not_an_error_witness :
    editAlbum journalDB [] 9 ⟨0, "New New Album", "New New Firman", 1120315638⟩
        = ((0, none), [("UPDATE album SET title=?, artist=?, price=? WHERE id=?",
            [.str "New New Album", .str "New New Firman", .f32 1120315638, .int 9])])
      ∧ deleteAlbum journalDB [] 9 = ((0, none), [("DELETE FROM album WHERE id=?", [.int 9])])
      ∧ editAlbum (memDB healthy) sample 9 ⟨0, "New New Album", "New New Firman", 1120315638⟩
        = ((0, none), sample)
      ∧ deleteAlbum (memDB healthy) sample 9 = ((0, none), sample) :=
  C7_zero_rows_is_not_an_error journalDB []
    [("UPDATE album SET title=?, artist=?, price=? WHERE id=?",
      [.str "New New Album", .str "New New Firman", .f32 1120315638, .int 9])]
    [("DELETE FROM album WHERE id=?", [.int 9])]
    ⟨.ok 0, .ok 0⟩ ⟨.ok 0, .ok 0⟩ healthy sample 9
    ⟨0, "New New Album", "New New Firman", 1120315638⟩ rfl rfl rfl rfl rfl rfl (by decide)

/-- C8: on a store whose ids are unique and in which id `i` exists, a first
`deleteAlbum(i)` that the store answers returns 1 row affected with a nil error,
and a second `deleteAlbum(i)` on the resulting store returns 0 rows affected
with a nil error. -/
theorem C8_delete_twice (f g : Faults) (s : Store) (i : Int)
    (hf : f.exec = none) (hfr : f.rowsAffected = none)
    (hg : g.exec = none) (hgr : g.rowsAffected = none)
    (huniq : (s.album.map Album.ID).Nodup) (hex : ∃ a ∈ s.album, a.ID = i) :
    (deleteAlbum (memDB f) s i).1 = (1, none)
      ∧ (deleteAlbum (memDB g) (deleteAlbum (memDB f) s i).2 i).1 = (0, none) := by
  have h1 : deleteAlbum (memDB f) s i
      = ((1, none), ⟨s.album.filter (fun a => decide (a.ID ≠ i)), s.nextID, s.countsMatched⟩) := by
    simp only [deleteAlbum, memDB_exec_delete f s i hf, hfr, report,
      length_filter_id_of_nodup s.album i huniq hex]
    rfl
  constructor
  · rw [h1]
  · rw [h1]
    simp only [deleteAlbum, memDB_exec_delete g _ i hg, hgr, report, filter_id_after_delete]
    rfl

theorem C8_delete_twice_witness :
    (deleteAlbum (memDB healthy) sample 3).1 = (1, none)
      ∧ (deleteAlbum (memDB healthy) (deleteAlbum (memDB healthy) sample 3).2 3).1
        = (0, none) :=
  C8_delete_twice healthy healthy sample 3 rfl rfl rfl rfl (by decide) (by decide)

/-- C9: after a `deleteAlbum(id)` that returned a nil error, `albumByID(id)` on
the resulting store, when the store answers the query, returns the zero album
and the not-found error `albumsById <id>: no such album`. -/
theorem C9_deleted_is_not_found (f g : Faults) (s : Store) (id : Int)
    (hdel : (deleteAlbum (memDB f) s id).1.2 = none)
    (hq : g.query = none) (hr : g.rowsErr = none) :
    albumByID (memDB g) (deleteAlbum (memDB f) s id).2 id
      = (Album.zero, some (GoError.new ("albumsById " ++ fmtD id ++ ": no such album"))) := by
  cases he : f.exec with
  | some cause =>
    simp [deleteAlbum, memDB_exec_fail f s _ _ cause he] at hdel
  | none =>
    have h2 : (deleteAlbum (memDB f) s id).2
        = ⟨s.album.filter (fun a => decide (a.ID ≠ id)), s.nextID, s.countsMatched⟩ := by
      simp only [deleteAlbum, memDB_exec_delete f s id he]
      cases f.rowsAffected <;> rfl
    rw [h2]
    simp [albumByID, DB.QueryRowScan, memDB_query_id g _ id hq, filter_id_after_delete,
      deliver, hr]

theorem C9_deleted_is_not_found_witness :
    albumByID (memDB healthy) (deleteAlbum (memDB healthy) sample 3).2 3
      = (Album.zero, some (GoError.new ("albumsById " ++ fmtD 3 ++ ": no such album"))) :=
  C9_deleted_is_not_found healthy healthy sample 3 rfl rfl rfl

/-- C10: `editAlbum` addresses the row through its `id` argument alone.  For two
albums that agree on title, artist and price, whatever their `ID` fields, the
two calls return the same result and leave the same store on every handle; the
statement sent is the `UPDATE` text with the parameters title, artist, price
and the `id` argument, the same for both; and on the store every row keeps its
key, and a row whose key differs from `id` is unchanged. -/
theorem C10_edit_ignores_album_id {σ : Type} (db : DB σ) (t : σ) (f : Faults) (s : Store)
    (id : Int) (a1 a2 : Album)
    (hT : a1.Title = a2.Title) (hA : a1.Artist = a2.Artist) (hP : a1.Price = a2.Price) :
    editAlbum db t id a1 = editAlbum db t id a2
      ∧ (editAlbum journalDB [] id a1).2
        = [("UPDATE album SET title=?, artist=?, price=? WHERE id=?",
            [.str a1.Title, .str a1.Artist, .f32 a1.Price, .int id])]
      ∧ (editAlbum journalDB [] id a2).2 = (editAlbum journalDB [] id a1).2
      ∧ List.Forall₂ (fun old new => new.ID = old.ID ∧ (old.ID ≠ id → new = old)) s.album
          (editAlbum (memDB f) s id a1).2.album := by
  refine ⟨?_, rfl, ?_, ?_⟩
  · simp only [editAlbum, hT, hA, hP]
  · simp only [editAlbum, hT, hA, hP]
  · cases he : f.exec with
    | some cause =>
      have h2 : (editAlbum (memDB f) s id a1).2 = s := by
        simp [editAlbum, memDB_exec_fail f s _ _ cause he]
      rw [h2]
      exact rows_related_same s.album id
    | none =>
      have h2 : (editAlbum (memDB f) s id a1).2.album
          = s.album.map (fun a =>
              if a.ID = id then (⟨a.ID, a1.Title, a1.Artist, a1.Price⟩ : Album) else a) := by
        simp only [editAlbum, memDB_exec_update f s _ _ _ id he]
        cases f.rowsAffected <;> rfl
      rw [h2]
      exact rows_related_update s.album id _ _ _

theorem C10_edit_ignores_album_id_witness :
    editAlbum (memDB healthy) sample 2 ⟨2, "New New Album", "New New Firman", 1120315638⟩
        = editAlbum (memDB healthy) sample 2 ⟨4, "New New Album", "New New Firman", 1120315638⟩
      ∧ (editAlbum journalDB [] 2 ⟨2, "New New Album", "New New Firman", 1120315638⟩).2
        = [("UPDATE album SET title=?, artist=?, price=? WHERE id=?",
            [.str "New New Album", .str "New New Firman", .f32 1120315638, .int 2])]
      ∧ (editAlbum journalDB [] 2 ⟨4, "New New Album", "New New Firman", 1120315638⟩).2
        = (editAlbum journalDB [] 2 ⟨2, "New New Album", "New New Firman", 1120315638⟩).2
      ∧ List.Forall₂ (fun old new => new.ID = old.ID ∧ (old.ID ≠ 2 → new = old)) sample.album
          (editAlbum (memDB healthy) sample 2
            ⟨2, "New New Album", "New New Firman", 1120315638⟩).2.album :=
  C10_edit_ignores_album_id (memDB healthy) sample healthy sample 2
    ⟨2, "New New Album", "New New Firman", 1120315638⟩ ⟨4, "New New Album", "New New Firman", 1120315638⟩
    rfl rfl rfl

end GoExampleDatabase
